import Mathlib

/-!
Shallow embedding of `src/kaag_pdf/generator.py` (class `PDFGenerator`) from the
kaag-pdf-export repository, together with proofs of the specification claims
about its two-pass pagination algorithm.

Modelling conventions:
* The ReportLab `Canvas` is modelled as a list of finished pages plus the page
  currently being drawn, each page being a list of drawing events in the order
  they were issued.  `Canvas.showPage` closes the current page;
  `Canvas.save` serializes the document, flushing the in-progress page when it
  has content.
* Vertical offsets are rationals (`ℚ`); ReportLab's `mm` unit is `72 / 25.4`
  points.
* The instance fields `_current_page` / `_total_pages` form `GenState`.
* The styles configuration (`styles.py`) and the component draw primitives
  (`components.py`) are not part of the provided sources; they are modelled
  from the spec (see the doc comments of `Config`, `drawHeader`,
  `performanceBarDraw`).
* A content callback is embedded as a list of operations (`COp`): it may call
  `new_page`, call `check_page_break`, draw content, or raise.  Running the
  same operation list in both passes models the spec's restriction to
  callbacks that behave identically in both passes; `COp.opRaise` models a
  callback (or drawing primitive) failure, interpreted in `Except`.
* `_draw_header` (generator.py line 149) reads `datetime.now()`; the clock
  reading is made an explicit `now : String` input of the model.
-/

namespace KaagPdf

/-- ReportLab's millimetre unit in points: `mm = 72 / 25.4`. -/
def mm : ℚ := 360 / 127

/-- Modelled from the spec: the styles configuration object and the header
component are missing from the sources (`src/kaag_pdf/styles.py`,
`src/kaag_pdf/components.py`).  The spec describes a styles object with
recognized fields `{page_margin_left, page_margin_bottom, footer_height, ...}`
and drawing components exposing `draw(surface, position, data, ...) ->
newPosition`; `header_start_y` is the vertical offset returned by drawing the
header. -/
structure Config where
  page_margin_bottom : ℚ
  footer_height : ℚ
  page_margin_left : ℚ
  header_start_y : ℚ
deriving DecidableEq, Repr

/-- Modelled from the spec: the payload of one performance bar
(`PerformanceBarData` in the missing `components.py`): a label, a value, and
the vertical advance its `draw` produces. -/
structure PerformanceBarData where
  label : String
  value : ℚ
  advance : ℚ
deriving DecidableEq, Repr

/-- One drawing event issued to the canvas.  Headers record the data of
`HeaderData` (title, subtitle and the clock-derived date string); footers
record the page number and total passed to `PDFFooter.draw`
(generator.py lines 154-160); `contentEv` stands for arbitrary callback
content; `perfBarEv` records a performance-bar draw. -/
inductive DrawEvent where
  | headerEv (title : String) (subtitle : Option String) (date : String) : DrawEvent
  | footerEv (pageNum : Nat) (totalPages : Nat) : DrawEvent
  | contentEv (tag : Nat) : DrawEvent
  | perfBarEv (x y : ℚ) (data : PerformanceBarData) : DrawEvent
deriving DecidableEq, Repr

/-- The in-memory drawing surface: finished pages plus the page currently
being drawn. -/
structure Canvas where
  pages : List (List DrawEvent)
  current : List DrawEvent
deriving DecidableEq, Repr

/-- A freshly opened canvas (`Canvas(buffer, pagesize=...)`). -/
def Canvas.empty : Canvas := ⟨[], []⟩

/-- Issue one drawing event on the current page. -/
def Canvas.drawEv (c : Canvas) (e : DrawEvent) : Canvas :=
  { c with current := c.current ++ [e] }

/-- ReportLab `canvas.showPage()`: close the current page and start a new
empty one. -/
def Canvas.showPage (c : Canvas) : Canvas :=
  ⟨c.pages ++ [c.current], []⟩

/-- ReportLab `canvas.save()`: serialize the document, flushing the
in-progress page when it has content.  The result is the page list of the
produced document. -/
def Canvas.save (c : Canvas) : List (List DrawEvent) :=
  if c.current = [] then c.pages else c.pages ++ [c.current]

/-- The page-tracking instance state of `PDFGenerator`
(`self._current_page`, `self._total_pages`, generator.py lines 90-91). -/
structure GenState where
  current_page : Nat
  total_pages : Nat
deriving DecidableEq, Repr

/-- Embedding of `PDFGenerator._draw_header` (generator.py lines 144-152):
build `HeaderData` from the title, subtitle and the current clock reading and
draw it, returning the canvas and the y position after the header.  The header
component itself is modelled from the spec (its `draw` appends the header
event and returns the start offset `header_start_y`). -/
def drawHeader (cfg : Config) (c : Canvas) (title : String)
    (subtitle : Option String) (now : String) : Canvas × ℚ :=
  (c.drawEv (DrawEvent.headerEv title subtitle now), cfg.header_start_y)

/-- Embedding of `PDFGenerator._draw_footer` (generator.py lines 154-160):
draw the footer with the current page number and the recorded total. -/
def drawFooter (s : GenState) (c : Canvas) : Canvas :=
  c.drawEv (DrawEvent.footerEv s.current_page s.total_pages)

/-- Embedding of `PDFGenerator.new_page` (generator.py lines 162-180):
`showPage`, increment the page counter, draw header and footer, return the
content start offset. -/
def newPage (cfg : Config) (s : GenState) (c : Canvas) (title : String)
    (subtitle : Option String) (now : String) : GenState × Canvas × ℚ :=
  let c := c.showPage
  let s : GenState := { s with current_page := s.current_page + 1 }
  let hr := drawHeader cfg c title subtitle now
  let c := drawFooter s hr.1
  (s, c, hr.2)

/-- The minimum allowed vertical offset of `check_page_break`
(generator.py line 203): bottom margin plus footer reserved height plus a
fixed 10 mm padding. -/
def minY (cfg : Config) : ℚ :=
  cfg.page_margin_bottom + cfg.footer_height + 10 * mm

/-- Embedding of `PDFGenerator.check_page_break` (generator.py lines
182-208): start a new page when the needed height does not fit above `minY`,
otherwise leave everything unchanged. -/
def checkPageBreak (cfg : Config) (s : GenState) (c : Canvas)
    (current_y needed_height : ℚ) (title : String) (subtitle : Option String)
    (now : String) : GenState × Canvas × ℚ :=
  if current_y - needed_height < minY cfg then
    newPage cfg s c title subtitle now
  else
    (s, c, current_y)

/-- One callback operation: the content callback may start a new page
directly, ask `check_page_break`, draw content of some height, or raise. -/
inductive COp where
  | opNewPage : COp
  | opCheckBreak (needed : ℚ) : COp
  | opDraw (tag : Nat) (dy : ℚ) : COp
  | opRaise (e : Nat) : COp
deriving DecidableEq, Repr

/-- Run a content callback (as its list of operations) against the generator
state, the canvas and the current vertical offset.  A raising operation
propagates as `Except.error`, uncaught. -/
def runOps (cfg : Config) (title : String) (subtitle : Option String)
    (now : String) : List COp → GenState → Canvas → ℚ →
    Except Nat (GenState × Canvas × ℚ)
  | [], s, c, y => Except.ok (s, c, y)
  | COp.opNewPage :: ops, s, c, _y =>
    let r := newPage cfg s c title subtitle now
    runOps cfg title subtitle now ops r.1 r.2.1 r.2.2
  | COp.opCheckBreak needed :: ops, s, c, y =>
    let r := checkPageBreak cfg s c y needed title subtitle now
    runOps cfg title subtitle now ops r.1 r.2.1 r.2.2
  | COp.opDraw tag dy :: ops, s, c, y =>
    runOps cfg title subtitle now ops s (c.drawEv (DrawEvent.contentEv tag)) (y - dy)
  | COp.opRaise e :: _ops, _s, _c, _y => Except.error e

/-- `true` when the callback contains no raising operation: exactly the
callbacks whose run completes. -/
def noRaise (ops : List COp) : Bool :=
  ops.all fun op => match op with
    | COp.opRaise _ => false
    | _ => true

/-- How many page breaks a callback triggers, given the vertical offset it
starts from: every `new_page` call plus every `check_page_break` call whose
condition fires.  This depends only on the operations, the offset and the
configuration, so it is identical in the counting and rendering passes. -/
def breaksTriggered (cfg : Config) : List COp → ℚ → Nat
  | [], _ => 0
  | COp.opNewPage :: ops, _y => breaksTriggered cfg ops cfg.header_start_y + 1
  | COp.opCheckBreak needed :: ops, y =>
    if y - needed < minY cfg then breaksTriggered cfg ops cfg.header_start_y + 1
    else breaksTriggered cfg ops y
  | COp.opDraw _ dy :: ops, y => breaksTriggered cfg ops (y - dy)
  | COp.opRaise _ :: _ops, _y => 0

/-- Page breaks triggered by an optional content callback invoked, as in
`create_report`, from the offset returned by drawing the header. -/
def cbBreaks (cfg : Config) : Option (List COp) → Nat
  | none => 0
  | some ops => breaksTriggered cfg ops cfg.header_start_y

/-- Whether an optional content callback runs to completion. -/
def cbNoRaise : Option (List COp) → Bool
  | none => true
  | some ops => noRaise ops

/-- The first, counting pass of `create_report` (generator.py lines 114-126):
fresh surface, page counter reset to 1 and total to 0, draw the header, run
the callback with `counting_only=True`, `showPage`, then record the total page
count.  Returns the (discarded) first surface and the state after recording
the total. -/
def countingPass (cfg : Config) (title : String) (subtitle : Option String)
    (cb : Option (List COp)) (now : String) :
    Except Nat (Canvas × GenState) :=
  let s : GenState := { current_page := 1, total_pages := 0 }
  let hr := drawHeader cfg Canvas.empty title subtitle now
  let pass1 : Except Nat (GenState × Canvas × ℚ) :=
    match cb with
    | some ops => runOps cfg title subtitle now ops s hr.1 hr.2
    | none => Except.ok (s, hr.1, hr.2)
  match pass1 with
  | Except.error e => Except.error e
  | Except.ok (s1, c1, _y1) =>
    Except.ok (c1.showPage, { s1 with total_pages := s1.current_page })

/-- The total page count recorded by the counting pass. -/
def countPages (cfg : Config) (title : String) (subtitle : Option String)
    (cb : Option (List COp)) (now : String) : Except Nat Nat :=
  match countingPass cfg title subtitle cb now with
  | Except.error e => Except.error e
  | Except.ok (_c, s) => Except.ok s.total_pages

/-- The second, rendering pass of `create_report` (generator.py lines
128-142), as a function of the recorded total page count only: fresh surface,
page counter reset to 1, draw header and footer, run the callback with
`counting_only=False`, then `save` and return the page list together with the
final instance state. -/
def renderPass (cfg : Config) (title : String) (subtitle : Option String)
    (cb : Option (List COp)) (now : String) (total : Nat) :
    Except Nat (List (List DrawEvent) × GenState) :=
  let s : GenState := { current_page := 1, total_pages := total }
  let hr := drawHeader cfg Canvas.empty title subtitle now
  let c := drawFooter s hr.1
  let pass2 : Except Nat (GenState × Canvas × ℚ) :=
    match cb with
    | some ops => runOps cfg title subtitle now ops s c hr.2
    | none => Except.ok (s, c, hr.2)
  match pass2 with
  | Except.error e => Except.error e
  | Except.ok (s2, c2, _y2) => Except.ok (c2.save, s2)

/-- Embedding of `PDFGenerator.create_report` (generator.py lines 94-142),
written out pass by pass exactly as the source.  `_s0` is the instance state
left by earlier calls: lines 117-118 overwrite both counters before any read,
so it is never consulted.  The result is the page list of the produced
document together with the final instance state; a callback failure in either
pass propagates as `Except.error`. -/
def createReport (cfg : Config) (title : String) (subtitle : Option String)
    (cb : Option (List COp)) (now : String) (_s0 : GenState) :
    Except Nat (List (List DrawEvent) × GenState) :=
  -- First pass - count pages
  let s : GenState := { current_page := 1, total_pages := 0 }
  let hr := drawHeader cfg Canvas.empty title subtitle now
  let pass1 : Except Nat (GenState × Canvas × ℚ) :=
    match cb with
    | some ops => runOps cfg title subtitle now ops s hr.1 hr.2
    | none => Except.ok (s, hr.1, hr.2)
  match pass1 with
  | Except.error e => Except.error e
  | Except.ok (s1, c1, _y1) =>
    let _discarded := c1.showPage
    let s1 : GenState := { s1 with total_pages := s1.current_page }
    -- Second pass - render with correct page numbers
    let s2 : GenState := { current_page := 1, total_pages := s1.total_pages }
    let hr2 := drawHeader cfg Canvas.empty title subtitle now
    let c2 := drawFooter s2 hr2.1
    let pass2 : Except Nat (GenState × Canvas × ℚ) :=
      match cb with
      | some ops => runOps cfg title subtitle now ops s2 c2 hr2.2
      | none => Except.ok (s2, c2, hr2.2)
    match pass2 with
    | Except.error e => Except.error e
    | Except.ok (s2', c2', _y2) => Except.ok (c2'.save, s2')

/-- Modelled from the spec: `PerformanceBar.draw` (missing `components.py`),
contract `draw(surface, position, data, ...) -> newPosition`: record the bar
on the canvas and return the advanced vertical position. -/
def performanceBarDraw (c : Canvas) (x y : ℚ) (data : PerformanceBarData) :
    Canvas × ℚ :=
  (c.drawEv (DrawEvent.perfBarEv x y data), y - data.advance)

/-- Embedding of `PDFGenerator.draw_performance_bar` (generator.py lines
275-289) with the default `x = styles.page_margin_left`. -/
def draw_performance_bar (cfg : Config) (c : Canvas) (y : ℚ)
    (data : PerformanceBarData) : Canvas × ℚ :=
  performanceBarDraw c cfg.page_margin_left y data

/-- Embedding of `PDFGenerator.draw_performance_bars` (generator.py lines
291-305): fold `draw_performance_bar` over the list, threading the vertical
position. -/
def draw_performance_bars (cfg : Config) (c : Canvas) (y : ℚ)
    (bars : List PerformanceBarData) : Canvas × ℚ :=
  bars.foldl (fun acc bar => draw_performance_bar cfg acc.1 acc.2 bar) (c, y)

/-- The footer events of a page, in drawing order. -/
def footersOf (p : List DrawEvent) : List DrawEvent :=
  p.filter fun e => match e with
    | DrawEvent.footerEv _ _ => true
    | _ => false

/-- All events on a counting-pass surface (finished pages then the current
page), empty when the pass raised. -/
def countingEvents (r : Except Nat (Canvas × GenState)) : List DrawEvent :=
  match r with
  | Except.error _ => []
  | Except.ok (c, _s) => c.pages.flatten ++ c.current

/-- The page list of a produced document, empty when the render raised. -/
def docPages (r : Except Nat (List (List DrawEvent) × GenState)) :
    List (List DrawEvent) :=
  match r with
  | Except.error _ => []
  | Except.ok (pgs, _s) => pgs

/-- A concrete configuration for the witnesses: 15 mm bottom margin, 20 mm
footer height, 20 mm left margin, header content start at 750 points. -/
def cfgEx : Config :=
  { page_margin_bottom := 15 * mm
    footer_height := 20 * mm
    page_margin_left := 20 * mm
    header_start_y := 750 }

/-- The instance state right after `PDFGenerator.__init__`
(generator.py lines 90-91). -/
def initState : GenState := { current_page := 0, total_pages := 0 }

/-- Invariant of the rendering pass: the recorded total is `T`, the page
counter is one ahead of the finished pages, every page (finished or current)
carries the header, every finished page `j` (0-based) carries exactly the
footer `(j+1, T)`, and the current page carries exactly the footer for its own
1-based position. -/
structure RenderInv (T : Nat) (title : String) (subtitle : Option String)
    (now : String) (s : GenState) (c : Canvas) : Prop where
  total_eq : s.total_pages = T
  cur_eq : s.current_page = c.pages.length + 1
  header_closed : ∀ p ∈ c.pages, DrawEvent.headerEv title subtitle now ∈ p
  header_open : DrawEvent.headerEv title subtitle now ∈ c.current
  footers_closed : c.pages.map footersOf =
    (List.range c.pages.length).map fun j => [DrawEvent.footerEv (j + 1) T]
  footer_open : footersOf c.current =
    [DrawEvent.footerEv (c.pages.length + 1) T]

theorem footersOf_append (l₁ l₂ : List DrawEvent) :
    footersOf (l₁ ++ l₂) = footersOf l₁ ++ footersOf l₂ := by
  simp [footersOf, List.filter_append]

theorem footersOf_contentEv (l : List DrawEvent) (tag : Nat) :
    footersOf (l ++ [DrawEvent.contentEv tag]) = footersOf l := by
  simp [footersOf_append, footersOf]

/-- Running a callback never fails when it contains no raising operation, and
it advances the page counter by exactly the number of breaks it triggers
while leaving the recorded total unchanged. -/
theorem runOps_count (cfg : Config) (title : String) (subtitle : Option String)
    (now : String) : ∀ (ops : List COp) (s : GenState) (c : Canvas) (y : ℚ),
    noRaise ops = true →
    ∃ s' c' y', runOps cfg title subtitle now ops s c y = Except.ok (s', c', y') ∧
      s'.current_page = s.current_page + breaksTriggered cfg ops y ∧
      s'.total_pages = s.total_pages := by
  intro ops
  induction ops with
  | nil =>
    intro s c y _
    exact ⟨s, c, y, rfl, by simp [breaksTriggered], rfl⟩
  | cons op ops ih =>
    intro s c y hnr
    have hnr' : noRaise ops = true := by
      cases op <;> simp_all [noRaise]
    cases op with
    | opNewPage =>
      obtain ⟨s', c', y', hrun, hcur, htot⟩ :=
        ih (newPage cfg s c title subtitle now).1
          (newPage cfg s c title subtitle now).2.1
          (newPage cfg s c title subtitle now).2.2 hnr'
      refine ⟨s', c', y', by simpa [runOps] using hrun, ?_, ?_⟩
      · have h1 : (newPage cfg s c title subtitle now).1.current_page =
            s.current_page + 1 := rfl
        have h2 : (newPage cfg s c title subtitle now).2.2 =
            cfg.header_start_y := rfl
        rw [hcur, h1, h2]
        simp [breaksTriggered]
        omega
      · have h3 : (newPage cfg s c title subtitle now).1.total_pages =
            s.total_pages := rfl
        rw [htot, h3]
    | opCheckBreak needed =>
      by_cases hb : y - needed < minY cfg
      · obtain ⟨s', c', y', hrun, hcur, htot⟩ :=
          ih (newPage cfg s c title subtitle now).1
            (newPage cfg s c title subtitle now).2.1
            (newPage cfg s c title subtitle now).2.2 hnr'
        refine ⟨s', c', y', ?_, ?_, ?_⟩
        · simpa [runOps, checkPageBreak, hb] using hrun
        · have h1 : (newPage cfg s c title subtitle now).1.current_page =
              s.current_page + 1 := rfl
          have h2 : (newPage cfg s c title subtitle now).2.2 =
              cfg.header_start_y := rfl
          rw [hcur, h1, h2]
          simp [breaksTriggered, hb]
          omega
        · have h3 : (newPage cfg s c title subtitle now).1.total_pages =
              s.total_pages := rfl
          rw [htot, h3]
      · obtain ⟨s', c', y', hrun, hcur, htot⟩ := ih s c y hnr'
        refine ⟨s', c', y', ?_, ?_, htot⟩
        · simpa [runOps, checkPageBreak, hb] using hrun
        · rw [hcur]
          simp [breaksTriggered, hb]
    | opDraw tag dy =>
      obtain ⟨s', c', y', hrun, hcur, htot⟩ :=
        ih s (c.drawEv (DrawEvent.contentEv tag)) (y - dy) hnr'
      exact ⟨s', c', y', by simpa [runOps] using hrun,
        by rw [hcur]; simp [breaksTriggered], htot⟩
    | opRaise e =>
      simp [noRaise] at hnr

/-- `new_page` preserves the rendering-pass invariant: it closes a correctly
footered page and opens a new page carrying the header and its own footer. -/
theorem renderInv_newPage (cfg : Config) (T : Nat) (title : String)
    (subtitle : Option String) (now : String) (s : GenState) (c : Canvas)
    (h : RenderInv T title subtitle now s c) :
    RenderInv T title subtitle now (newPage cfg s c title subtitle now).1
      (newPage cfg s c title subtitle now).2.1 := by
  obtain ⟨ht, hc, hhc, hho, hfc, hfo⟩ := h
  have hpages : (newPage cfg s c title subtitle now).2.1.pages =
      c.pages ++ [c.current] := rfl
  have hcur : (newPage cfg s c title subtitle now).2.1.current =
      [DrawEvent.headerEv title subtitle now,
       DrawEvent.footerEv (s.current_page + 1) s.total_pages] := rfl
  have hst : (newPage cfg s c title subtitle now).1 =
      { s with current_page := s.current_page + 1 } := rfl
  constructor
  · rw [hst]; exact ht
  · rw [hst, hpages]; simp [hc]
  · rw [hpages]
    intro p hp
    rcases List.mem_append.mp hp with hp | hp
    · exact hhc p hp
    · rw [List.mem_singleton.mp hp]; exact hho
  · rw [hcur]; simp
  · rw [hpages]
    rw [List.map_append, hfc]
    have hlen : (c.pages ++ [c.current]).length = c.pages.length + 1 := by simp
    rw [hlen, List.range_succ, List.map_append, List.map_singleton,
      List.map_singleton, hfo]
  · rw [hcur, hpages]
    have : footersOf [DrawEvent.headerEv title subtitle now,
        DrawEvent.footerEv (s.current_page + 1) s.total_pages] =
        [DrawEvent.footerEv (s.current_page + 1) s.total_pages] := by
      simp [footersOf]
    rw [this, ht, hc]
    simp

/-- Running a callback in the rendering pass preserves the rendering-pass
invariant. -/
theorem runOps_render (cfg : Config) (title : String) (subtitle : Option String)
    (now : String) (T : Nat) :
    ∀ (ops : List COp) (s : GenState) (c : Canvas) (y : ℚ),
    noRaise ops = true → RenderInv T title subtitle now s c →
    ∃ s' c' y', runOps cfg title subtitle now ops s c y = Except.ok (s', c', y') ∧
      RenderInv T title subtitle now s' c' := by
  intro ops
  induction ops with
  | nil =>
    intro s c y _ hinv
    exact ⟨s, c, y, rfl, hinv⟩
  | cons op ops ih =>
    intro s c y hnr hinv
    have hnr' : noRaise ops = true := by
      cases op <;> simp_all [noRaise]
    cases op with
    | opNewPage =>
      obtain ⟨s', c', y', hrun, hinv'⟩ :=
        ih (newPage cfg s c title subtitle now).1
          (newPage cfg s c title subtitle now).2.1
          (newPage cfg s c title subtitle now).2.2 hnr'
          (renderInv_newPage cfg T title subtitle now s c hinv)
      exact ⟨s', c', y', by simpa [runOps] using hrun, hinv'⟩
    | opCheckBreak needed =>
      by_cases hb : y - needed < minY cfg
      · obtain ⟨s', c', y', hrun, hinv'⟩ :=
          ih (newPage cfg s c title subtitle now).1
            (newPage cfg s c title subtitle now).2.1
            (newPage cfg s c title subtitle now).2.2 hnr'
            (renderInv_newPage cfg T title subtitle now s c hinv)
        exact ⟨s', c', y',
          by simpa [runOps, checkPageBreak, hb] using hrun, hinv'⟩
      · obtain ⟨s', c', y', hrun, hinv'⟩ := ih s c y hnr' hinv
        exact ⟨s', c', y',
          by simpa [runOps, checkPageBreak, hb] using hrun, hinv'⟩
    | opDraw tag dy =>
      obtain ⟨ht, hc, hhc, hho, hfc, hfo⟩ := hinv
      have hinv₂ : RenderInv T title subtitle now s
          (c.drawEv (DrawEvent.contentEv tag)) := by
        constructor
        · exact ht
        · simpa [Canvas.drawEv] using hc
        · simpa [Canvas.drawEv] using hhc
        · simpa [Canvas.drawEv] using hho
        · simpa [Canvas.drawEv] using hfc
        · simpa [Canvas.drawEv, footersOf_contentEv] using hfo
      obtain ⟨s', c', y', hrun, hinv'⟩ :=
        ih s (c.drawEv (DrawEvent.contentEv tag)) (y - dy) hnr' hinv₂
      exact ⟨s', c', y', by simpa [runOps] using hrun, hinv'⟩
    | opRaise e =>
      simp [noRaise] at hnr

/-- `create_report` is the counting pass followed by the rendering pass run
against the recorded total alone: the returned document is built on the
second surface only. -/
theorem createReport_eq (cfg : Config) (title : String)
    (subtitle : Option String) (cb : Option (List COp)) (now : String)
    (s0 : GenState) :
    createReport cfg title subtitle cb now s0 =
      match countPages cfg title subtitle cb now with
      | Except.error e => Except.error e
      | Except.ok total => renderPass cfg title subtitle cb now total := by
  unfold createReport countPages countingPass renderPass
  cases cb with
  | none => rfl
  | some ops =>
    cases hrun : runOps cfg title subtitle now ops
        { current_page := 1, total_pages := 0 }
        (drawHeader cfg Canvas.empty title subtitle now).1
        (drawHeader cfg Canvas.empty title subtitle now).2 with
    | error e => simp [hrun]
    | ok r => simp [hrun]

/-- The counting pass of a completing callback succeeds and records total
page count `breaks + 1`. -/
theorem countingPass_spec (cfg : Config) (title : String)
    (subtitle : Option String) (cb : Option (List COp)) (now : String)
    (h : cbNoRaise cb = true) :
    ∃ c1 s1, countingPass cfg title subtitle cb now = Except.ok (c1, s1) ∧
      s1.total_pages = cbBreaks cfg cb + 1 := by
  cases cb with
  | none => exact ⟨_, _, rfl, rfl⟩
  | some ops =>
    obtain ⟨s1, c1, y1, hrun, hcur, _htot⟩ :=
      runOps_count cfg title subtitle now ops
        { current_page := 1, total_pages := 0 }
        (drawHeader cfg Canvas.empty title subtitle now).1
        (drawHeader cfg Canvas.empty title subtitle now).2
        (by simpa [cbNoRaise] using h)
    refine ⟨c1.showPage, { s1 with total_pages := s1.current_page }, ?_, ?_⟩
    · unfold countingPass
      simp [hrun]
    · simp only []
      rw [hcur]
      simp [cbBreaks, drawHeader]
      omega

/-- The rendering pass of a completing callback succeeds, yields
`breaks + 1` pages, keeps the given total, puts the header on every page and
exactly the footer `(i, total)` on the 1-based page `i`. -/
theorem renderPass_spec (cfg : Config) (title : String)
    (subtitle : Option String) (cb : Option (List COp)) (now : String)
    (T : Nat) (h : cbNoRaise cb = true) :
    ∃ pgs sF, renderPass cfg title subtitle cb now T = Except.ok (pgs, sF) ∧
      pgs.length = cbBreaks cfg cb + 1 ∧
      sF.total_pages = T ∧
      (∀ p ∈ pgs, DrawEvent.headerEv title subtitle now ∈ p) ∧
      pgs.map footersOf = (List.range (cbBreaks cfg cb + 1)).map
        (fun i => [DrawEvent.footerEv (i + 1) T]) := by
  cases cb with
  | none =>
    refine ⟨[[DrawEvent.headerEv title subtitle now, DrawEvent.footerEv 1 T]],
      { current_page := 1, total_pages := T }, ?_, rfl, rfl, ?_, ?_⟩
    · unfold renderPass
      simp [drawHeader, drawFooter, Canvas.drawEv, Canvas.empty, Canvas.save]
    · intro p hp
      rw [List.mem_singleton.mp hp]
      simp
    · simp [cbBreaks, footersOf, List.range_succ]
  | some ops =>
    have hnr : noRaise ops = true := by simpa [cbNoRaise] using h
    have hinv : RenderInv T title subtitle now
        { current_page := 1, total_pages := T }
        (drawFooter { current_page := 1, total_pages := T }
          (drawHeader cfg Canvas.empty title subtitle now).1) := by
      constructor
      · rfl
      · rfl
      · intro p hp
        simp [drawFooter, drawHeader, Canvas.drawEv, Canvas.empty] at hp
      · simp [drawFooter, drawHeader, Canvas.drawEv, Canvas.empty]
      · rfl
      · rfl
    obtain ⟨s', c', y', hrun, hinv'⟩ :=
      runOps_render cfg title subtitle now T ops
        { current_page := 1, total_pages := T }
        (drawFooter { current_page := 1, total_pages := T }
          (drawHeader cfg Canvas.empty title subtitle now).1)
        (drawHeader cfg Canvas.empty title subtitle now).2 hnr hinv
    obtain ⟨s'', c'', y'', hrun', hcur, _htot⟩ :=
      runOps_count cfg title subtitle now ops
        { current_page := 1, total_pages := T }
        (drawFooter { current_page := 1, total_pages := T }
          (drawHeader cfg Canvas.empty title subtitle now).1)
        (drawHeader cfg Canvas.empty title subtitle now).2 hnr
    rw [hrun] at hrun'
    simp only [Except.ok.injEq, Prod.mk.injEq] at hrun'
    obtain ⟨hs, hc2, _hy⟩ := hrun'
    subst hs hc2
    obtain ⟨hT, hc, hhc, hho, hfc, hfo⟩ := hinv'
    have hBcur : s'.current_page = 1 + cbBreaks cfg (some ops) := by
      rw [hcur]
      simp [cbBreaks, drawHeader]
    have hlen : c'.pages.length = cbBreaks cfg (some ops) := by omega
    have hne : c'.current ≠ [] := by
      intro h0
      rw [h0] at hfo
      simp [footersOf] at hfo
    refine ⟨c'.save, s', ?_, ?_, hT, ?_, ?_⟩
    · unfold renderPass
      simp [hrun]
    · unfold Canvas.save
      rw [if_neg hne]
      simp [hlen]
    · intro p hp
      unfold Canvas.save at hp
      rw [if_neg hne] at hp
      rcases List.mem_append.mp hp with hp | hp
      · exact hhc p hp
      · rw [List.mem_singleton.mp hp]
        exact hho
    · unfold Canvas.save
      rw [if_neg hne]
      rw [List.map_append, hfc, List.map_singleton, hfo, hlen,
        List.range_succ, List.map_append, List.map_singleton]

/-- Full behaviour of `create_report` for a completing callback: success,
`breaks + 1` pages, recorded total `breaks + 1`, header on every page, and
exactly the footer `(i, breaks + 1)` on the 1-based page `i`. -/
theorem createReport_spec (cfg : Config) (title : String)
    (subtitle : Option String) (cb : Option (List COp)) (now : String)
    (s0 : GenState) (h : cbNoRaise cb = true) :
    ∃ pgs sF, createReport cfg title subtitle cb now s0 = Except.ok (pgs, sF) ∧
      pgs.length = cbBreaks cfg cb + 1 ∧
      sF.total_pages = cbBreaks cfg cb + 1 ∧
      (∀ p ∈ pgs, DrawEvent.headerEv title subtitle now ∈ p) ∧
      pgs.map footersOf = (List.range (cbBreaks cfg cb + 1)).map
        (fun i => [DrawEvent.footerEv (i + 1) (cbBreaks cfg cb + 1)]) := by
  obtain ⟨c1, s1, hcp, htot⟩ := countingPass_spec cfg title subtitle cb now h
  obtain ⟨pgs, sF, hrp, hlen, hT, hhd, hft⟩ :=
    renderPass_spec cfg title subtitle cb now s1.total_pages h
  refine ⟨pgs, sF, ?_, hlen, ?_, hhd, ?_⟩
  · rw [createReport_eq]
    unfold countPages
    rw [hcp]
    exact hrp
  · rw [hT, htot]
  · rw [hft, htot]

/-- C1: for every content callback that triggers exactly `N` page breaks
during the counting pass and behaves identically in both passes (here: the
same operation list is run in both passes), `create_report` produces a
document with exactly `N + 1` pages, records total page count `N + 1`, and
draws on each 1-based page `i` exactly the footer with page number `i` and
total `N + 1`. -/
theorem C1_page_count_invariant (cfg : Config) (title : String)
    (subtitle : Option String) (now : String) (s0 : GenState)
    (ops : List COp) (N : Nat) (hnr : noRaise ops = true)
    (hN : breaksTriggered cfg ops cfg.header_start_y = N) :
    ∃ pgs sF,
      createReport cfg title subtitle (some ops) now s0 =
        Except.ok (pgs, sF) ∧
      pgs.length = N + 1 ∧ sF.total_pages = N + 1 ∧
      pgs.map footersOf = (List.range (N + 1)).map
        (fun i => [DrawEvent.footerEv (i + 1) (N + 1)]) := by
  obtain ⟨pgs, sF, h1, h2, h3, _h4, h5⟩ :=
    createReport_spec cfg title subtitle (some ops) now s0
      (by simpa [cbNoRaise] using hnr)
  have hB : cbBreaks cfg (some ops) = N := by simpa [cbBreaks] using hN
  rw [hB] at h2 h3 h5
  exact ⟨pgs, sF, h1, h2, h3, h5⟩

/-- Witness for C1 at a concrete callback performing one explicit page
break. -/
theorem C1_page_count_invariant_witness :
    noRaise [COp.opNewPage] = true ∧
    breaksTriggered cfgEx [COp.opNewPage] cfgEx.header_start_y = 1 ∧
    ∃ pgs sF,
      createReport cfgEx "Player Report" (some "Season 2024-2025")
          (some [COp.opNewPage]) "01 January 2026" initState =
        Except.ok (pgs, sF) ∧
      pgs.length = 1 + 1 ∧ sF.total_pages = 1 + 1 ∧
      pgs.map footersOf = (List.range (1 + 1)).map
        (fun i => [DrawEvent.footerEv (i + 1) (1 + 1)]) :=
  ⟨by decide, by decide,
    C1_page_count_invariant cfgEx "Player Report" (some "Season 2024-2025")
      "01 January 2026" initState [COp.opNewPage] 1 (by decide) (by decide)⟩

/-- C2: `check_page_break` uses the minimum offset `page_margin_bottom +
footer_height + 10 mm`; it returns the offset unchanged when
`current_y - needed_height ≥ min_y`, and otherwise triggers a new page and
returns the fresh start offset equal to the value returned by drawing the new
page's header. -/
theorem C2_check_page_break_contract (cfg : Config) (s : GenState)
    (c : Canvas) (current_y needed_height : ℚ) (title : String)
    (subtitle : Option String) (now : String) :
    minY cfg = cfg.page_margin_bottom + cfg.footer_height + 10 * mm ∧
    (minY cfg ≤ current_y - needed_height →
      checkPageBreak cfg s c current_y needed_height title subtitle now =
        (s, c, current_y)) ∧
    (current_y - needed_height < minY cfg →
      checkPageBreak cfg s c current_y needed_height title subtitle now =
        newPage cfg s c title subtitle now ∧
      (checkPageBreak cfg s c current_y needed_height title subtitle
          now).2.2 =
        (drawHeader cfg c.showPage title subtitle now).2) := by
  refine ⟨rfl, ?_, ?_⟩
  · intro hge
    simp [checkPageBreak, not_lt.mpr hge]
  · intro hlt
    exact ⟨by simp [checkPageBreak, hlt],
      by simp [checkPageBreak, hlt, newPage, drawHeader]⟩

/-- Witness for C2 at concrete inputs hitting both branches. -/
theorem C2_check_page_break_contract_witness :
    checkPageBreak cfgEx initState Canvas.empty 800 10 "t" Option.none "d" =
      (initState, Canvas.empty, 800) ∧
    checkPageBreak cfgEx initState Canvas.empty 100 50 "t" Option.none "d" =
      newPage cfgEx initState Canvas.empty "t" Option.none "d" :=
  ⟨(C2_check_page_break_contract cfgEx initState Canvas.empty 800 10 "t"
      Option.none "d").2.1 (by norm_num [minY, mm, cfgEx]),
    ((C2_check_page_break_contract cfgEx initState Canvas.empty 100 50 "t"
      Option.none "d").2.2 (by norm_num [minY, mm, cfgEx])).1⟩

/-- C3 counterexample: with a callback performing one page break, the
counting pass itself draws a footer (with the sentinel total 0) — footers
are not drawn only under a rendering mode; `new_page` has no pass-mode
check. -/
theorem C3_counterexample_footer_in_counting_pass :
    footersOf (countingEvents
        (countingPass cfgEx "t" Option.none (some [COp.opNewPage]) "d")) =
      [DrawEvent.footerEv 2 0] := by decide

/-- C3 amended: `new_page` draws the footer unconditionally in both passes —
the fresh page it opens always carries the header followed by the footer for
the incremented page counter and the currently recorded total (0 during the
counting pass).  Counting-pass footers land on the first, discarded surface,
so the returned document contains only rendering-pass footers. -/
theorem C3_new_page_footer_unconditional (cfg : Config) (s : GenState)
    (c : Canvas) (title : String) (subtitle : Option String) (now : String) :
    ((newPage cfg s c title subtitle now).2.1).current =
      [DrawEvent.headerEv title subtitle now,
       DrawEvent.footerEv (s.current_page + 1) s.total_pages] := rfl

/-- C4: `create_report` performs the counting pass, records the total page
count, and the document it returns is exactly what the rendering pass alone
produces on a fresh second surface from that recorded total — nothing from
the first surface is included. -/
theorem C4_second_surface_only (cfg : Config) (title : String)
    (subtitle : Option String) (cb : Option (List COp)) (now : String)
    (s0 : GenState) :
    createReport cfg title subtitle cb now s0 =
      match countPages cfg title subtitle cb now with
      | Except.error e => Except.error e
      | Except.ok total => renderPass cfg title subtitle cb now total :=
  createReport_eq cfg title subtitle cb now s0

/-- C5 counterexample: `_draw_header` embeds the current clock reading
(`datetime.now()`, generator.py line 149) into the drawn header, so two
`create_report` calls with identical title, subtitle, callback and data but
different clock readings produce different documents. -/
theorem C5_counterexample_clock_dependence :
    docPages (createReport cfgEx "Player Report" Option.none Option.none
        "01 January 2026" initState) ≠
      docPages (createReport cfgEx "Player Report" Option.none Option.none
        "02 January 2026" initState) := by decide

/-- C5 amended: with the clock reading drawn into the header held equal, the
output of `create_report` is a pure function of its arguments — two calls
with identical `(title, subtitle, data)` and equal clock readings produce
identical output, whatever instance states they start from. -/
theorem C5_determinism_given_clock (cfg : Config) (title : String)
    (subtitle : Option String) (cb : Option (List COp)) (now : String)
    (s1 s2 : GenState) :
    createReport cfg title subtitle cb now s1 =
      createReport cfg title subtitle cb now s2 := rfl

/-- C6: `create_report` reinitializes both page counters before any read
(generator.py lines 117-118), so with the other inputs equal its result is
independent of the counter values left by earlier renders. -/
theorem C6_counter_reinitialization (cfg : Config) (title : String)
    (subtitle : Option String) (cb : Option (List COp)) (now : String)
    (p t : Nat) :
    createReport cfg title subtitle cb now
        { current_page := p, total_pages := t } =
      createReport cfg title subtitle cb now initState := rfl

/-- C7: a content callback that triggers zero page breaks — including the
omitted callback — yields a single-page document whose one page carries both
the header and the footer, with total pages 1. -/
theorem C7_zero_breaks_single_page (cfg : Config) (title : String)
    (subtitle : Option String) (cb : Option (List COp)) (now : String)
    (s0 : GenState) (hnr : cbNoRaise cb = true)
    (hz : cbBreaks cfg cb = 0) :
    ∃ pg sF,
      createReport cfg title subtitle cb now s0 = Except.ok ([pg], sF) ∧
      DrawEvent.headerEv title subtitle now ∈ pg ∧
      footersOf pg = [DrawEvent.footerEv 1 1] ∧
      sF.total_pages = 1 := by
  obtain ⟨pgs, sF, h1, h2, h3, h4, h5⟩ :=
    createReport_spec cfg title subtitle cb now s0 hnr
  rw [hz] at h2 h3 h5
  obtain ⟨pg, hpg⟩ := List.length_eq_one.mp h2
  subst hpg
  refine ⟨pg, sF, h1, h4 pg (by simp), ?_, h3⟩
  simpa [List.range_succ] using h5

/-- Witness for C7 with the callback omitted. -/
theorem C7_zero_breaks_single_page_witness :
    cbNoRaise Option.none = true ∧ cbBreaks cfgEx Option.none = 0 ∧
    ∃ pg sF,
      createReport cfgEx "t" Option.none Option.none "d" initState =
        Except.ok ([pg], sF) ∧
      DrawEvent.headerEv "t" Option.none "d" ∈ pg ∧
      footersOf pg = [DrawEvent.footerEv 1 1] ∧
      sF.total_pages = 1 :=
  ⟨by decide, by decide,
    C7_zero_breaks_single_page cfgEx "t" Option.none Option.none "d"
      initState (by decide) (by decide)⟩

/-- C8: a callback (or drawing-primitive) failure during the counting pass
propagates uncaught out of `create_report`: the error is returned as-is and
no document is produced.  Since the same callback runs in both passes, this
is the first failure point; nothing is retried. -/
theorem C8_error_propagation (cfg : Config) (title : String)
    (subtitle : Option String) (now : String) (s0 : GenState)
    (ops : List COp) (e : Nat)
    (h : runOps cfg title subtitle now ops
        { current_page := 1, total_pages := 0 }
        (drawHeader cfg Canvas.empty title subtitle now).1
        (drawHeader cfg Canvas.empty title subtitle now).2 =
      Except.error e) :
    createReport cfg title subtitle (some ops) now s0 = Except.error e := by
  unfold createReport
  simp [h]

/-- Witness for C8 at a callback that raises immediately. -/
theorem C8_error_propagation_witness :
    runOps cfgEx "t" Option.none "d" [COp.opRaise 7]
        { current_page := 1, total_pages := 0 }
        (drawHeader cfgEx Canvas.empty "t" Option.none "d").1
        (drawHeader cfgEx Canvas.empty "t" Option.none "d").2 =
      Except.error 7 ∧
    createReport cfgEx "t" Option.none (some [COp.opRaise 7]) "d" initState =
      Except.error 7 :=
  ⟨rfl, C8_error_propagation cfgEx "t" Option.none "d" initState
    [COp.opRaise 7] 7 rfl⟩

/-- C9: when no break is needed (`current_y - needed_height ≥ min_y`),
`check_page_break` is effect-free — both page counters and the canvas are
unchanged and the offset is returned as-is. -/
theorem C9_no_break_frame (cfg : Config) (s : GenState) (c : Canvas)
    (current_y needed_height : ℚ) (title : String) (subtitle : Option String)
    (now : String) (hge : minY cfg ≤ current_y - needed_height) :
    checkPageBreak cfg s c current_y needed_height title subtitle now =
      (s, c, current_y) := by
  simp [checkPageBreak, not_lt.mpr hge]

/-- Witness for C9 at a concrete offset far above the minimum. -/
theorem C9_no_break_frame_witness :
    checkPageBreak cfgEx initState Canvas.empty 800 10 "t" Option.none "d" =
      (initState, Canvas.empty, 800) :=
  C9_no_break_frame cfgEx initState Canvas.empty 800 10 "t" Option.none "d"
    (by norm_num [minY, mm, cfgEx])

/-- C10: `draw_performance_bars` called with an empty bar list is an
identity on the vertical position and draws nothing on the canvas. -/
theorem C10_empty_bars_identity (cfg : Config) (c : Canvas) (y : ℚ) :
    draw_performance_bars cfg c y [] = (c, y) := rfl

end KaagPdf
